import Mathlib

/-!
Verification of the YouTube video summarizer pipeline
(`Youtube Video Summary/VideoSummary.py`).

The Python module is a sequential pipeline behind one Flask request handler:
URL validation (a regular expression), audio download via yt-dlp into
`temp/audio.<ext>`, transcription and summarization via the OpenAI API, and
cleanup of the temporary file in a `finally` block.

The embedding below models:
  * the filesystem as the list of existing file paths (`List String`);
  * the yt-dlp call, the transcription call and the summarization call as
    request-scoped oracles describing the outcome of the single remote call
    the code performs;
  * Python exceptions as an explicit error type `PyErr`, with each `except`
    clause translated to an explicit match on the error of the guarded block;
  * the URL regular expression as a specialized backtracking matcher over
    `List Char` (the overall result of `re.match` is only tested against
    `None`, so only the existence of a match is modelled, which makes the
    greedy/ordered alternation of the original equivalent to plain
    disjunction).
-/

namespace VideoSummary

/-! ## URL validator

Embedding of `validate_youtube_url` (VideoSummary.py lines 201-209):

    (?:https?://)?(?:www\.)?
    (?:youtube|youtu|youtube-nocookie)\.(?:com|be)/
    (?:watch\?v=|embed/|v/|.+/|\w+\?v=)?([^&=%?\s/]{11})

compiled with `re.IGNORECASE` and used through `re.match` (anchored at the
start of the string, matching a prefix).  Case-insensitivity is modelled by
lowercasing the input; every literal in the pattern is already lowercase.
-/

/-- The whitespace class `\s` of the pattern (ASCII part). -/
def pyIsSpace (c : Char) : Bool :=
  c = ' ' || c = '\t' || c = '\n' || c = '\r' || c = '\x0b' || c = '\x0c'

/-- The character class `[^&=%?\s/]` of the identifier segment. -/
def isIdChar (c : Char) : Bool :=
  !(c = '&' || c = '=' || c = '%' || c = '?' || pyIsSpace c || c = '/')

/-- The word class `\w` of the pattern (ASCII part). -/
def isWordChar (c : Char) : Bool :=
  c.isAlphanum || c = '_'

/-- Consume a literal from the front of the input; `none` on mismatch. -/
def stripLit : List Char → List Char → Option (List Char)
  | [], s => some s
  | _ :: _, [] => none
  | l :: ls, c :: cs => if c = l then stripLit ls cs else none

/-- `[^&=%?\s/]{n}`: consume exactly `n` identifier characters. -/
def takeNId : Nat → List Char → Bool
  | 0, _ => true
  | _ + 1, [] => false
  | n + 1, c :: cs => isIdChar c && takeNId n cs

/-- The final `([^&=%?\s/]{11})` group; anything may follow (`re.match`
matches a prefix only). -/
def idTail (s : List Char) : Bool := takeNId 11 s

/-- A literal followed by a continuation. -/
def litThen (lit : String) (k : List Char → Bool) (r : List Char) : Bool :=
  match stripLit lit.data r with
  | some r' => k r'
  | none => false

/-- After at least one `.`-matched character: find a `/` such that every
character before it matches `.` (any character except a newline), then
continue with `k`. -/
def dotSlashAux (k : List Char → Bool) : List Char → Bool
  | [] => false
  | c :: cs => (c = '/' && k cs) || (c != '\n' && dotSlashAux k cs)

/-- The `.+/` alternative of the optional path group. -/
def dotPlusSlash (k : List Char → Bool) : List Char → Bool
  | [] => false
  | c :: cs => (c != '\n') && dotSlashAux k cs

/-- After at least one `\w` character: either the literal `?v=` follows and
the continuation takes over, or consume one more word character. -/
def wordQvAux (k : List Char → Bool) : List Char → Bool
  | [] => false
  | '?' :: 'v' :: '=' :: cs => k cs
  | c :: cs => isWordChar c && wordQvAux k cs

/-- The `\w+\?v=` alternative of the optional path group. -/
def wordPlusQv (k : List Char → Bool) : List Char → Bool
  | [] => false
  | c :: cs => isWordChar c && wordQvAux k cs

/-- The optional path group `(?:watch\?v=|embed/|v/|.+/|\w+\?v=)?` followed
by the 11-character identifier. -/
def afterDomain (r : List Char) : Bool :=
  idTail r
  || litThen "watch?v=" idTail r
  || litThen "embed/" idTail r
  || litThen "v/" idTail r
  || dotPlusSlash idTail r
  || wordPlusQv idTail r

/-- The six concrete expansions of
`(?:youtube|youtu|youtube-nocookie)\.(?:com|be)/`. -/
def domainLits : List String :=
  ["youtube.com/", "youtube.be/", "youtu.com/", "youtu.be/",
   "youtube-nocookie.com/", "youtube-nocookie.be/"]

/-- The domain segment followed by the rest of the pattern. -/
def domainStep (r : List Char) : Bool :=
  domainLits.any (fun d => litThen d afterDomain r)

/-- The optional `www.` segment. -/
def wwwStep (r : List Char) : Bool :=
  domainStep r || litThen "www." domainStep r

/-- The full pattern with its optional scheme `(?:https?://)?`, anchored at
the start of the input. -/
def matchShape (s : List Char) : Bool :=
  wwwStep s || litThen "http://" wwwStep s || litThen "https://" wwwStep s

/-- `validate_youtube_url` (VideoSummary.py lines 201-209): `re.match` with
`re.IGNORECASE` against `None`. -/
def validate_youtube_url (url : String) : Bool :=
  matchShape (url.data.map Char.toLower)

/-! ## Python strings and errors -/

/-- `str.strip()` (ASCII whitespace): drop leading and trailing whitespace. -/
def pyStrip (s : String) : String :=
  ⟨((s.data.dropWhile pyIsSpace).reverse.dropWhile pyIsSpace).reverse⟩

/-- The exceptions that cross function boundaries in VideoSummary.py:
`ValueError`, `FileNotFoundError`, a raw `openai.error.AuthenticationError`
(re-raised as-is by `summarize_text`), and any other unexpected exception. -/
inductive PyErr where
  | valueError (msg : String)
  | fileNotFoundError (msg : String)
  | authenticationError
  | otherError (msg : String)

/-! ## Constants (VideoSummary.py lines 63-65) -/

/-- `MAX_VIDEO_LENGTH = 3600  # 1 hour in seconds`. -/
def MAX_VIDEO_LENGTH : Nat := 3600

/-! ## The yt-dlp call

The filesystem is the list of existing file paths.  The outcome of the
single `ydl.extract_info(video_url, download=True)` call is an oracle: on
success it yields the extension chosen by the format selector (the file is
then `temp/audio.<ext>`, from the `outtmpl` template via
`ydl.prepare_filename`), whether the file was actually written, and its
size; otherwise it raises `yt_dlp.DownloadError` or some other exception.
-/

/-- Options dictionary built in `download_audio`
(VideoSummary.py lines 228-237). -/
structure YdlOpts where
  format : String
  outtmpl : String
  quiet : Bool
  no_warnings : Bool
  noplaylist : Bool
  extract_flat : Bool
  max_duration : Nat

/-- The `ydl_opts` dictionary of `download_audio`; the fields are, in
order, `format`, `outtmpl`, `quiet`, `no_warnings`, `noplaylist`,
`extract_flat`, `max_duration` (the `logger` entry carries no semantics). -/
def ydl_opts : YdlOpts :=
  ⟨"bestaudio[ext=m4a]/bestaudio[ext=mp3]/bestaudio",
   "temp/audio.%(ext)s", true, true, true, false, MAX_VIDEO_LENGTH⟩

/-- Outcome of one `ydl.extract_info(..., download=True)` call. -/
inductive FetchOutcome where
  | fetched (ext : String) (written : Bool) (size : Nat)
  | dlError (msg : String)
  | unexpected (e : PyErr)

/-- Metadata of the requested source, used by the duration contract of the
extractor. -/
structure SourceInfo where
  duration : Nat

/-- Modelled from the spec: the audio source extractor (the yt-dlp library)
is an external collaborator whose code is not part of this repository.
Section 6 of the spec gives its contract: given a URL, return a
downloadable audio stream, "enforce a max duration, tell me if it fails".
Under that contract a source longer than the configured ceiling is rejected
with a download error and nothing is written. -/
def ydl_extract_info (opts : YdlOpts) (src : SourceInfo) (net : FetchOutcome) :
    FetchOutcome :=
  if opts.max_duration < src.duration then
    .dlError "requested source exceeds the maximum duration"
  else net

/-! ## Pipeline stages -/

/-- `download_audio` (VideoSummary.py lines 220-254).  Returns the result
(`url` of the temporary file, or the raised exception), the filesystem
after the call, and whether the downloader was invoked at all.  The
`ValueError` raised on a missing/empty file propagates unchanged through
the bare `raise` of the final `except Exception` clause. -/
def download_audio (ydl : YdlOpts → FetchOutcome) (video_url : String)
    (fs : List String) : Except PyErr String × List String × Bool :=
  if validate_youtube_url video_url then
    match ydl ydl_opts with
    | .fetched ext written size =>
      let file_path := "temp/audio." ++ ext
      let fs' := if written then file_path :: fs else fs
      if file_path ∉ fs' ∨ size = 0 then
        (.error (.valueError "Failed to download audio content"), fs', true)
      else
        (.ok file_path, fs', true)
    | .dlError _ =>
      (.error (.valueError "Error downloading video. Please check the URL and try again."),
       fs, true)
    | .unexpected e => (.error e, fs, true)
  else
    (.error (.valueError "Invalid YouTube URL"), fs, false)

/-- Outcome of one remote OpenAI call.  For transcription the payload is
the optional `text` field of the response (`none` when the response is
falsy or has no `text` key); for summarization it is the list of the
contents of `response.choices`. -/
inductive ApiOutcome (α : Type) where
  | success (payload : α)
  | authError
  | rateLimitError
  | apiOther (msg : String)

/-- `transcribe_audio` (VideoSummary.py lines 256-277).  The
`ValueError("Invalid response from transcription service")` raised inside
the `try` block is itself caught by the trailing `except Exception` clause
and re-signaled as the sanitized `ValueError`. -/
def transcribe_audio (tr : ApiOutcome (Option String)) (fs : List String)
    (file_path : String) : Except PyErr String :=
  if file_path ∈ fs then
    match tr with
    | .success (some text) => .ok text
    | .success none => .error (.valueError "Error processing audio. Please try again.")
    | .authError => .error (.valueError "Authentication error with the transcription service.")
    | .rateLimitError => .error (.valueError "Rate limit exceeded. Please try again later.")
    | .apiOther _ => .error (.valueError "Error processing audio. Please try again.")
  else
    .error (.fileNotFoundError "Audio file not found")

/-- `summarize_text` (VideoSummary.py lines 279-321).  The second component
records whether the remote ChatCompletion call was performed.  The
`ValueError("Empty response from summarization service")` raised inside the
`try` block is caught by the trailing `except Exception` clause; the
`AuthenticationError` clause re-raises the raw exception (`raise` with no
argument). -/
def summarize_text (sm : ApiOutcome (List String)) (text : String) :
    Except PyErr String × Bool :=
  if text = "" ∨ pyStrip text = "" then
    (.ok "No content to summarize.", false)
  else
    match sm with
    | .success [] =>
      (.error (.valueError "Error generating summary. Please try again."), true)
    | .success (content :: _) =>
      if content = "" then
        (.error (.valueError "Error generating summary. Please try again."), true)
      else
        (.ok (pyStrip content), true)
    | .authError => (.error .authenticationError, true)
    | .rateLimitError =>
      (.error (.valueError "Rate limit exceeded. Please try again later."), true)
    | .apiOther _ =>
      (.error (.valueError "Error generating summary. Please try again."), true)

/-! ## Cleanup -/

/-- `os.remove`: may fail (oracle `removeFails`); removing a non-existing
path raises. -/
def os_remove (removeFails : String → Bool) (fs : List String)
    (file_path : String) : Except PyErr (List String) :=
  if file_path ∈ fs then
    if removeFails file_path then .error (.otherError "OSError")
    else .ok (fs.filter (fun q => q != file_path))
  else .error (.fileNotFoundError "No such file or directory")

/-- `cleanup_files` (VideoSummary.py lines 211-218), for the single file
the handler passes: guarded by truthiness of the path and `os.path.exists`,
with every exception of `os.remove` caught and logged.  The function always
returns normally. -/
def cleanup_files (removeFails : String → Bool) (fs : List String)
    (file_path : String) : List String :=
  if file_path ≠ "" ∧ file_path ∈ fs then
    match os_remove removeFails fs file_path with
    | .ok fs' => fs'
    | .error _ => fs
  else fs

/-! ## Request handler -/

/-- The per-request oracles: the yt-dlp call, the transcription call, the
summarization call, and whether `os.remove` fails on a given path. -/
structure Env where
  ydl : YdlOpts → FetchOutcome
  tr : ApiOutcome (Option String)
  sm : ApiOutcome (List String)
  removeFails : String → Bool

/-- The `except` clauses of the handler (VideoSummary.py lines 188-195):
`ValueError` becomes HTTP 400 echoing the message, any other exception
becomes HTTP 500 with a generic message. -/
def errorResponse : PyErr → Nat × String
  | .valueError msg => (400, "Error: " ++ msg)
  | _ => (500, "An error occurred while processing your request. Please try again.")

/-- The body of the handler `try` block after a successful download
(VideoSummary.py lines 180-186): transcribe, then summarize; the second
component records whether `summarize_text` was invoked. -/
def runStages (env : Env) (fs1 : List String) (audio_file : String) :
    (Nat × String) × Bool :=
  match transcribe_audio env.tr fs1 audio_file with
  | .error e => (errorResponse e, false)
  | .ok transcript =>
    match (summarize_text env.sm transcript).1 with
    | .ok summary => ((200, summary), true)
    | .error e => (errorResponse e, true)

/-- Observable outcome of one request to `/summarize`: HTTP status, the
message rendered into the page, the filesystem after the request, and
whether the transcriber / summarizer stages were invoked. -/
structure HandlerOutcome where
  status : Nat
  body : String
  fs : List String
  transcriberCalled : Bool
  summarizerCalled : Bool

/-- `summarize` — the `/summarize` request handler (VideoSummary.py lines
165-199): strip the form field, reject empty input, run the pipeline, map
exceptions via `errorResponse`, and in the `finally` block clean up the
temporary file when `audio_file` is set, truthy and exists.  When
`download_audio` raises, `audio_file` is still `None`, so no cleanup
happens on that path. -/
def summarize_handler (env : Env) (form_video_url : String)
    (fs : List String) : HandlerOutcome :=
  let video_url := pyStrip form_video_url
  if video_url = "" then
    ⟨400, "Error: Please provide a YouTube URL", fs, false, false⟩
  else
    match download_audio env.ydl video_url fs with
    | (.error e, fs1, _) =>
      ⟨(errorResponse e).1, (errorResponse e).2, fs1, false, false⟩
    | (.ok audio_file, fs1, _) =>
      let r := runStages env fs1 audio_file
      let fs2 :=
        if audio_file ≠ "" ∧ audio_file ∈ fs1 then
          cleanup_files env.removeFails fs1 audio_file
        else fs1
      ⟨r.1.1, r.1.2, fs2, true, r.2⟩

/-! ## Helper lemmas -/

theorem validate_empty : validate_youtube_url "" = false := rfl

theorem temp_audio_ne_empty (ext : String) : ("temp/audio." ++ ext) ≠ "" := by
  intro h
  exact List.noConfusion (congrArg String.data h)

theorem pyStrip_eq_empty_of_all_space (s : String)
    (h : s.data.all pyIsSpace = true) : pyStrip s = "" := by
  have h1 : s.data.dropWhile pyIsSpace = [] := by
    rw [List.dropWhile_eq_nil_iff]
    intro x hx
    exact List.all_eq_true.mp h x hx
  simp [pyStrip, h1]

theorem download_audio_ok_facts (ydl : YdlOpts → FetchOutcome) (url : String)
    (fs : List String) (p : String) (fs1 : List String) (u : Bool)
    (h : download_audio ydl url fs = (.ok p, fs1, u)) :
    validate_youtube_url url = true ∧ p ∈ fs1 ∧ p ≠ "" ∧ url ≠ "" := by
  by_cases hv : validate_youtube_url url = true
  · refine ⟨hv, ?_, ?_, ?_⟩
    · cases hy : ydl ydl_opts with
      | fetched ext written size =>
        simp only [download_audio, hv, if_true, hy] at h
        by_cases hc : ("temp/audio." ++ ext) ∉
            (if written then ("temp/audio." ++ ext) :: fs else fs) ∨ size = 0
        · simp [hc] at h
        · simp [hc] at h
          push_neg at hc
          obtain ⟨hp, hfs, -⟩ := h
          rw [← hp, ← hfs]
          exact hc.1
      | dlError msg => simp [download_audio, hv, hy] at h
      | unexpected e => simp [download_audio, hv, hy] at h
    · cases hy : ydl ydl_opts with
      | fetched ext written size =>
        simp only [download_audio, hv, if_true, hy] at h
        by_cases hc : ("temp/audio." ++ ext) ∉
            (if written then ("temp/audio." ++ ext) :: fs else fs) ∨ size = 0
        · simp [hc] at h
        · simp [hc] at h
          rw [← h.1]
          exact temp_audio_ne_empty ext
      | dlError msg => simp [download_audio, hv, hy] at h
      | unexpected e => simp [download_audio, hv, hy] at h
    · intro hurl
      rw [hurl, validate_empty] at hv
      exact Bool.noConfusion hv
  · rw [Bool.not_eq_true] at hv
    simp [download_audio, hv] at h

theorem summarize_handler_ok_eq (env : Env) (form : String) (fs : List String)
    (p : String) (fs1 : List String) (u : Bool)
    (hdl : download_audio env.ydl (pyStrip form) fs = (.ok p, fs1, u)) :
    summarize_handler env form fs =
      ⟨(runStages env fs1 p).1.1, (runStages env fs1 p).1.2,
       cleanup_files env.removeFails fs1 p, true, (runStages env fs1 p).2⟩ := by
  obtain ⟨hv, hmem, hne, hurlne⟩ := download_audio_ok_facts _ _ _ _ _ _ hdl
  simp [summarize_handler, hurlne, hdl, hne, hmem]

/-! ## Claims -/

/-- C2: the URL validator returns true for the accepted video-hosting URL
shapes, instantiated at the spec examples
`https://www.youtube.com/watch?v=dQw4w9WgXcQ` and
`https://youtu.be/dQw4w9WgXcQ`, and false for the spec non-examples: the
empty string, a non-video-hosting URL, and a URL missing the 11-character
identifier. -/
theorem C2_validator_accepts_shape_rejects_rest :
    validate_youtube_url "https://www.youtube.com/watch?v=dQw4w9WgXcQ" = true
    ∧ validate_youtube_url "https://youtu.be/dQw4w9WgXcQ" = true
    ∧ validate_youtube_url "" = false
    ∧ validate_youtube_url "https://vimeo.com/123456789" = false
    ∧ validate_youtube_url "https://www.youtube.com/watch?v=abc" = false := by
  exact ⟨by decide, by decide, by decide, by decide, by decide⟩

/-- C3: for every input that is empty or consists only of whitespace, the
summarizer returns exactly "No content to summarize." and the remote
text-generation call is never performed (second component false), whatever
the remote service would have answered. -/
theorem C3_whitespace_transcript_short_circuits (sm : ApiOutcome (List String))
    (text : String) (h : text.data.all pyIsSpace = true) :
    summarize_text sm text = (.ok "No content to summarize.", false) := by
  have h1 : pyStrip text = "" := pyStrip_eq_empty_of_all_space text h
  simp [summarize_text, h1]

/-- Witness for C3 at the concrete whitespace-only transcript consisting of
spaces and a tab. -/
theorem C3_witness :
    summarize_text (.apiOther "boom") " \t " = (.ok "No content to summarize.", false) :=
  C3_whitespace_transcript_short_circuits (.apiOther "boom") " \t " (by decide)

/-- C7: whenever the validator rejects the url, `download_audio` fails with
`InvalidInput` (`ValueError("Invalid YouTube URL")`), the filesystem is
untouched and the downloader is never invoked (third component false),
whatever the downloader would have done. -/
theorem C7_invalid_url_rejected_before_network (ydl : YdlOpts → FetchOutcome)
    (url : String) (fs : List String) (h : validate_youtube_url url = false) :
    download_audio ydl url fs
      = (.error (.valueError "Invalid YouTube URL"), fs, false) := by
  simp [download_audio, h]

/-- Witness for C7 at a concrete non-video-hosting URL. -/
theorem C7_witness :
    download_audio (fun _ => .dlError "net down") "https://example.com/video" []
      = (.error (.valueError "Invalid YouTube URL"), [], false) :=
  C7_invalid_url_rejected_before_network _ _ _ (by decide)

/-- C8: Cleanup is idempotent: on a path that does not exist it returns the
filesystem unchanged and raises nothing (the function always returns
normally, every `os.remove` failure being caught), and running Cleanup a
second time after a first Cleanup of the same path is a no-op. -/
theorem C8_cleanup_idempotent (rf : String → Bool) (fs fsb : List String)
    (p : String) (h : p ∉ fs) :
    cleanup_files rf fs p = fs
    ∧ cleanup_files rf (cleanup_files rf fsb p) p = cleanup_files rf fsb p := by
  constructor
  · simp [cleanup_files, h]
  · by_cases hp : p = ""
    · simp [cleanup_files, hp]
    · by_cases hmem : p ∈ fsb
      · by_cases hrf : rf p = true
        · simp [cleanup_files, os_remove, hp, hmem, hrf]
        · rw [Bool.not_eq_true] at hrf
          have hfil : p ∉ fsb.filter (fun q => q != p) := by
            simp [List.mem_filter]
          simp [cleanup_files, os_remove, hp, hmem, hrf, hfil]
      · simp [cleanup_files, hmem]

/-- Witness for C8 at a concrete already-deleted path. -/
theorem C8_witness :
    cleanup_files (fun _ => false) ["temp/other.m4a"] "temp/audio.m4a"
      = ["temp/other.m4a"]
    ∧ cleanup_files (fun _ => false)
        (cleanup_files (fun _ => false) ["temp/audio.m4a"] "temp/audio.m4a")
        "temp/audio.m4a"
      = cleanup_files (fun _ => false) ["temp/audio.m4a"] "temp/audio.m4a" :=
  C8_cleanup_idempotent (fun _ => false) ["temp/other.m4a"] ["temp/audio.m4a"]
    "temp/audio.m4a" (by decide)

/-- C10: the validator is anchored at the start of the string and matches
only a prefix, with the scheme optional: any characters may follow the
11-character identifier (both with scheme and scheme-less), while a string
whose accepted shape starts only after position 0 is rejected. -/
theorem C10_prefix_match_scheme_optional (ts : List Char) :
    validate_youtube_url ⟨"https://www.youtube.com/watch?v=dQw4w9WgXcQ".data ++ ts⟩ = true
    ∧ validate_youtube_url ⟨"youtu.be/dQw4w9WgXcQ".data ++ ts⟩ = true
    ∧ validate_youtube_url " youtu.be/dQw4w9WgXcQ" = false := by
  exact ⟨rfl, rfl, by decide⟩

/-- C4: after a completed download, a file that was not written (and not
present as a stale leftover) or that is empty makes `download_audio` fail
with `DownloadFailed` (`ValueError("Failed to download audio content")`),
and every `yt_dlp.DownloadError`, whatever its message, is re-signaled as
the fixed sanitized `DownloadFailed` message. -/
theorem C4_download_verification_and_sanitization (url : String)
    (fs : List String) (ext msg : String) (size : Nat)
    (hv : validate_youtube_url url = true)
    (hstale : ("temp/audio." ++ ext) ∉ fs) :
    download_audio (fun _ => .fetched ext true 0) url fs
      = (.error (.valueError "Failed to download audio content"),
         ("temp/audio." ++ ext) :: fs, true)
    ∧ download_audio (fun _ => .fetched ext false size) url fs
      = (.error (.valueError "Failed to download audio content"), fs, true)
    ∧ download_audio (fun _ => .dlError msg) url fs
      = (.error (.valueError "Error downloading video. Please check the URL and try again."),
         fs, true) := by
  refine ⟨?_, ?_, ?_⟩
  · simp [download_audio, hv]
  · simp [download_audio, hv, hstale]
  · simp [download_audio, hv]

/-- Witness for C4 at a concrete valid URL, extension and raw transport
error message. -/
theorem C4_witness :
    download_audio (fun _ => .fetched "m4a" true 0) "https://youtu.be/dQw4w9WgXcQ" []
      = (.error (.valueError "Failed to download audio content"), ["temp/audio.m4a"], true)
    ∧ download_audio (fun _ => .fetched "m4a" false 7) "https://youtu.be/dQw4w9WgXcQ" []
      = (.error (.valueError "Failed to download audio content"), [], true)
    ∧ download_audio (fun _ => .dlError "HTTP Error 403: Forbidden")
        "https://youtu.be/dQw4w9WgXcQ" []
      = (.error (.valueError "Error downloading video. Please check the URL and try again."),
         [], true) :=
  C4_download_verification_and_sanitization "https://youtu.be/dQw4w9WgXcQ" []
    "m4a" "HTTP Error 403: Forbidden" 7 (by decide) (by decide)

/-- C6: the fetch layer configures the duration ceiling
`MAX_VIDEO_LENGTH = 3600` in the downloader options; under the spec
contract of the extractor (`ydl_extract_info`), a source longer than 3600
seconds is rejected with `DownloadFailed` and nothing is downloaded (the
filesystem is unchanged). -/
theorem C6_duration_ceiling_enforced (src : SourceInfo) (net : FetchOutcome)
    (url : String) (fs : List String)
    (hv : validate_youtube_url url = true) (hd : 3600 < src.duration) :
    MAX_VIDEO_LENGTH = 3600
    ∧ download_audio (fun opts => ydl_extract_info opts src net) url fs
      = (.error (.valueError "Error downloading video. Please check the URL and try again."),
         fs, true) := by
  refine ⟨rfl, ?_⟩
  simp [download_audio, hv, ydl_extract_info, ydl_opts, MAX_VIDEO_LENGTH, hd]

/-- Witness for C6 at a 3601-second source. -/
theorem C6_witness :
    MAX_VIDEO_LENGTH = 3600
    ∧ download_audio
        (fun opts => ydl_extract_info opts ⟨3601⟩ (.fetched "m4a" true 999))
        "https://youtu.be/dQw4w9WgXcQ" []
      = (.error (.valueError "Error downloading video. Please check the URL and try again."),
         [], true) :=
  C6_duration_ceiling_enforced ⟨3601⟩ (.fetched "m4a" true 999)
    "https://youtu.be/dQw4w9WgXcQ" [] (by decide) (by decide)

/-- C1: whenever the fetch stage returned a file path, the handler deletes
the backing file in its `finally` block after the pipeline completes — for
every transcription and summarization outcome — and a failing deletion
(oracle `rfB`) never changes the status or body returned to the caller. -/
theorem C1_asset_cleaned_up_unconditionally (ydl : YdlOpts → FetchOutcome)
    (tr : ApiOutcome (Option String)) (sm : ApiOutcome (List String))
    (rf rfB : String → Bool) (form : String) (fs : List String)
    (p : String) (fs1 : List String) (u : Bool)
    (hdl : download_audio ydl (pyStrip form) fs = (.ok p, fs1, u))
    (hrf : rf p = false) :
    p ∉ (summarize_handler ⟨ydl, tr, sm, rf⟩ form fs).fs
    ∧ (summarize_handler ⟨ydl, tr, sm, rfB⟩ form fs).status
        = (summarize_handler ⟨ydl, tr, sm, rf⟩ form fs).status
    ∧ (summarize_handler ⟨ydl, tr, sm, rfB⟩ form fs).body
        = (summarize_handler ⟨ydl, tr, sm, rf⟩ form fs).body := by
  obtain ⟨hv, hmem, hne, hurlne⟩ := download_audio_ok_facts _ _ _ _ _ _ hdl
  have h1 := summarize_handler_ok_eq ⟨ydl, tr, sm, rf⟩ form fs p fs1 u hdl
  have h2 := summarize_handler_ok_eq ⟨ydl, tr, sm, rfB⟩ form fs p fs1 u hdl
  refine ⟨?_, ?_, ?_⟩
  · rw [h1]
    simp [cleanup_files, os_remove, hne, hmem, hrf, List.mem_filter]
  · rw [h1, h2]
    rfl
  · rw [h1, h2]
    rfl

/-- Witness for C1: a successful download of `temp/audio.m4a` followed by a
failing transcription; the file is deleted and a failing deletion does not
change the response. -/
theorem C1_witness :
    "temp/audio.m4a" ∉ (summarize_handler
        ⟨fun _ => .fetched "m4a" true 5, .authError, .apiOther "x", fun _ => false⟩
        "https://youtu.be/dQw4w9WgXcQ" []).fs
    ∧ (summarize_handler
        ⟨fun _ => .fetched "m4a" true 5, .authError, .apiOther "x", fun _ => true⟩
        "https://youtu.be/dQw4w9WgXcQ" []).status
      = (summarize_handler
        ⟨fun _ => .fetched "m4a" true 5, .authError, .apiOther "x", fun _ => false⟩
        "https://youtu.be/dQw4w9WgXcQ" []).status
    ∧ (summarize_handler
        ⟨fun _ => .fetched "m4a" true 5, .authError, .apiOther "x", fun _ => true⟩
        "https://youtu.be/dQw4w9WgXcQ" []).body
      = (summarize_handler
        ⟨fun _ => .fetched "m4a" true 5, .authError, .apiOther "x", fun _ => false⟩
        "https://youtu.be/dQw4w9WgXcQ" []).body :=
  C1_asset_cleaned_up_unconditionally (fun _ => .fetched "m4a" true 5)
    .authError (.apiOther "x") (fun _ => false) (fun _ => true)
    "https://youtu.be/dQw4w9WgXcQ" [] "temp/audio.m4a" ["temp/audio.m4a"] true
    rfl rfl

/-- C5 counterexample: a request whose transcription call fails with a
rate-limit rejection gets HTTP 400 (the handler maps the sanitized
`ValueError` of `transcribe_audio` to 400), not the claimed 429. -/
theorem C5_counterexample :
    (⟨fun _ => .fetched "m4a" true 5, .rateLimitError, .apiOther "x",
        fun _ => false⟩ : Env).tr = ApiOutcome.rateLimitError
    ∧ (summarize_handler
        ⟨fun _ => .fetched "m4a" true 5, .rateLimitError, .apiOther "x", fun _ => false⟩
        "https://youtu.be/dQw4w9WgXcQ" []).status = 400
    ∧ (summarize_handler
        ⟨fun _ => .fetched "m4a" true 5, .rateLimitError, .apiOther "x", fun _ => false⟩
        "https://youtu.be/dQw4w9WgXcQ" []).status ≠ 429 := by
  exact ⟨rfl, rfl, by decide⟩

/-- C5 amended: after a successful fetch, an authentication failure of the
transcription call yields HTTP 400 with the fixed sanitized message; an
upstream rate-limit rejection yields HTTP 400 (not 429) with the fixed
sanitized message, in both stages; an authentication failure of the
summarization call propagates as a raw non-`ValueError` exception and
yields HTTP 500 with the generic message.  No response ever embeds the raw
provider error text. -/
theorem C5_amended_upstream_error_statuses (ydl : YdlOpts → FetchOutcome)
    (rf : String → Bool) (smAny : ApiOutcome (List String)) (form : String)
    (fs : List String) (p : String) (fs1 : List String) (u : Bool) (t : String)
    (hdl : download_audio ydl (pyStrip form) fs = (.ok p, fs1, u))
    (ht : pyStrip t ≠ "") :
    ((summarize_handler ⟨ydl, .authError, smAny, rf⟩ form fs).status = 400
      ∧ (summarize_handler ⟨ydl, .authError, smAny, rf⟩ form fs).body
          = "Error: Authentication error with the transcription service.")
    ∧ ((summarize_handler ⟨ydl, .rateLimitError, smAny, rf⟩ form fs).status = 400
      ∧ (summarize_handler ⟨ydl, .rateLimitError, smAny, rf⟩ form fs).body
          = "Error: Rate limit exceeded. Please try again later.")
    ∧ ((summarize_handler ⟨ydl, .success (some t), .authError, rf⟩ form fs).status = 500
      ∧ (summarize_handler ⟨ydl, .success (some t), .authError, rf⟩ form fs).body
          = "An error occurred while processing your request. Please try again.")
    ∧ ((summarize_handler ⟨ydl, .success (some t), .rateLimitError, rf⟩ form fs).status = 400
      ∧ (summarize_handler ⟨ydl, .success (some t), .rateLimitError, rf⟩ form fs).body
          = "Error: Rate limit exceeded. Please try again later.") := by
  obtain ⟨hv, hmem, hne, hurlne⟩ := download_audio_ok_facts _ _ _ _ _ _ hdl
  have htne : t ≠ "" := fun hh => ht (by rw [hh]; rfl)
  refine ⟨⟨?_, ?_⟩, ⟨?_, ?_⟩, ⟨?_, ?_⟩, ⟨?_, ?_⟩⟩ <;>
    rw [summarize_handler_ok_eq _ _ _ p fs1 u hdl] <;>
    simp [runStages, transcribe_audio, hmem, errorResponse, summarize_text,
      ht, htne]

/-- Witness for the amended C5 at a concrete request. -/
theorem C5_witness :
    ((summarize_handler
        ⟨fun _ => .fetched "m4a" true 5, .authError, .apiOther "x", fun _ => false⟩
        "https://youtu.be/dQw4w9WgXcQ" []).status = 400
      ∧ (summarize_handler
        ⟨fun _ => .fetched "m4a" true 5, .authError, .apiOther "x", fun _ => false⟩
        "https://youtu.be/dQw4w9WgXcQ" []).body
          = "Error: Authentication error with the transcription service.")
    ∧ ((summarize_handler
        ⟨fun _ => .fetched "m4a" true 5, .rateLimitError, .apiOther "x", fun _ => false⟩
        "https://youtu.be/dQw4w9WgXcQ" []).status = 400
      ∧ (summarize_handler
        ⟨fun _ => .fetched "m4a" true 5, .rateLimitError, .apiOther "x", fun _ => false⟩
        "https://youtu.be/dQw4w9WgXcQ" []).body
          = "Error: Rate limit exceeded. Please try again later.")
    ∧ ((summarize_handler
        ⟨fun _ => .fetched "m4a" true 5, .success (some "hello world"), .authError, fun _ => false⟩
        "https://youtu.be/dQw4w9WgXcQ" []).status = 500
      ∧ (summarize_handler
        ⟨fun _ => .fetched "m4a" true 5, .success (some "hello world"), .authError, fun _ => false⟩
        "https://youtu.be/dQw4w9WgXcQ" []).body
          = "An error occurred while processing your request. Please try again.")
    ∧ ((summarize_handler
        ⟨fun _ => .fetched "m4a" true 5, .success (some "hello world"), .rateLimitError, fun _ => false⟩
        "https://youtu.be/dQw4w9WgXcQ" []).status = 400
      ∧ (summarize_handler
        ⟨fun _ => .fetched "m4a" true 5, .success (some "hello world"), .rateLimitError, fun _ => false⟩
        "https://youtu.be/dQw4w9WgXcQ" []).body
          = "Error: Rate limit exceeded. Please try again later.") :=
  C5_amended_upstream_error_statuses (fun _ => .fetched "m4a" true 5)
    (fun _ => false) (.apiOther "x") "https://youtu.be/dQw4w9WgXcQ" []
    "temp/audio.m4a" ["temp/audio.m4a"] true "hello world" rfl (by decide)

/-- C9 counterexample: a request whose fetch stage fails because the URL is
rejected by the validator returns `InvalidInput`
(`Error: Invalid YouTube URL`), not `DownloadFailed`, although the fetch
stage failed. -/
theorem C9_counterexample :
    (download_audio (fun _ => .fetched "m4a" true 5)
        (pyStrip "https://example.com/watch") []).1
      = .error (.valueError "Invalid YouTube URL")
    ∧ (summarize_handler
        ⟨fun _ => .fetched "m4a" true 5, .apiOther "x", .apiOther "x", fun _ => false⟩
        "https://example.com/watch" []).body = "Error: Invalid YouTube URL"
    ∧ (summarize_handler
        ⟨fun _ => .fetched "m4a" true 5, .apiOther "x", .apiOther "x", fun _ => false⟩
        "https://example.com/watch" []).body
      ≠ "Error: Error downloading video. Please check the URL and try again." := by
  exact ⟨rfl, rfl, by decide⟩

/-- C9 amended: whenever the fetch stage fails, the Transcriber and the
Summarizer are never invoked; and when the fetch failure is a
download/transport error (`yt_dlp.DownloadError`), the pipeline returns
`DownloadFailed`: HTTP 400 with the fixed sanitized download-error message
(other fetch failures map to their own kinds: `InvalidInput`, or a generic
500 for unexpected errors). -/
theorem C9_amended_fetch_failure_short_circuits (ydl ydlB : YdlOpts → FetchOutcome)
    (tr : ApiOutcome (Option String)) (sm : ApiOutcome (List String))
    (rf : String → Bool) (form formB : String) (fs : List String)
    (e : PyErr) (fs1 : List String) (u : Bool) (msg : String)
    (hdl : download_audio ydl (pyStrip form) fs = (.error e, fs1, u))
    (hB : ydlB ydl_opts = .dlError msg)
    (hvB : validate_youtube_url (pyStrip formB) = true) :
    ((summarize_handler ⟨ydl, tr, sm, rf⟩ form fs).transcriberCalled = false
      ∧ (summarize_handler ⟨ydl, tr, sm, rf⟩ form fs).summarizerCalled = false)
    ∧ ((summarize_handler ⟨ydlB, tr, sm, rf⟩ formB fs).status = 400
      ∧ (summarize_handler ⟨ydlB, tr, sm, rf⟩ formB fs).body
          = "Error: Error downloading video. Please check the URL and try again."
      ∧ (summarize_handler ⟨ydlB, tr, sm, rf⟩ formB fs).transcriberCalled = false
      ∧ (summarize_handler ⟨ydlB, tr, sm, rf⟩ formB fs).summarizerCalled = false) := by
  have hBne : pyStrip formB ≠ "" := by
    intro hh
    rw [hh, validate_empty] at hvB
    exact Bool.noConfusion hvB
  constructor
  · by_cases hform : pyStrip form = ""
    · simp [summarize_handler, hform]
    · simp [summarize_handler, hform, hdl]
  · have hdlB : download_audio ydlB (pyStrip formB) fs
        = (.error (.valueError "Error downloading video. Please check the URL and try again."),
           fs, true) := by
      simp [download_audio, hvB, hB]
    simp [summarize_handler, hBne, hdlB, errorResponse]

/-- Witness for the amended C9: an unexpected fetch error short-circuits
the pipeline, and a transport error yields the `DownloadFailed` response
with no transcriber or summarizer call. -/
theorem C9_witness :
    ((summarize_handler
        ⟨fun _ => .unexpected (.otherError "disk full"), .apiOther "x", .apiOther "x",
         fun _ => false⟩ "https://youtu.be/dQw4w9WgXcQ" []).transcriberCalled = false
      ∧ (summarize_handler
        ⟨fun _ => .unexpected (.otherError "disk full"), .apiOther "x", .apiOther "x",
         fun _ => false⟩ "https://youtu.be/dQw4w9WgXcQ" []).summarizerCalled = false)
    ∧ ((summarize_handler
        ⟨fun _ => .dlError "HTTP Error 403: Forbidden", .apiOther "x", .apiOther "x",
         fun _ => false⟩ "https://youtu.be/dQw4w9WgXcQ" []).status = 400
      ∧ (summarize_handler
        ⟨fun _ => .dlError "HTTP Error 403: Forbidden", .apiOther "x", .apiOther "x",
         fun _ => false⟩ "https://youtu.be/dQw4w9WgXcQ" []).body
          = "Error: Error downloading video. Please check the URL and try again."
      ∧ (summarize_handler
        ⟨fun _ => .dlError "HTTP Error 403: Forbidden", .apiOther "x", .apiOther "x",
         fun _ => false⟩ "https://youtu.be/dQw4w9WgXcQ" []).transcriberCalled = false
      ∧ (summarize_handler
        ⟨fun _ => .dlError "HTTP Error 403: Forbidden", .apiOther "x", .apiOther "x",
         fun _ => false⟩ "https://youtu.be/dQw4w9WgXcQ" []).summarizerCalled = false) :=
  C9_amended_fetch_failure_short_circuits
    (fun _ => .unexpected (.otherError "disk full"))
    (fun _ => .dlError "HTTP Error 403: Forbidden")
    (.apiOther "x") (.apiOther "x") (fun _ => false)
    "https://youtu.be/dQw4w9WgXcQ" "https://youtu.be/dQw4w9WgXcQ" []
    (.otherError "disk full") [] true "HTTP Error 403: Forbidden"
    rfl rfl (by decide)

end VideoSummary
